import Mathlib

/-!
Verification of the packaging script `src/backend/setup.py` of the
brik-refunds-service repository.

The script is embedded shallowly:

* File contents are `List Char` (the decoded text of a file).
* The script resolves paths against two different bases:
  `read` and `get_requirements` join the file name with the directory
  containing the setup script (`os.path.dirname(__file__)`), while the
  guard `os.path.exists('README.md')` resolves the bare relative path
  against the current working directory.  A `FileSystem` therefore
  carries two views: `scriptFile name` is the content of `name` in the
  script directory (`none` when opening it would raise `IOError` /
  `FileNotFoundError`), and `cwdExists name` is the result of
  `os.path.exists name` in the current working directory.
* Python exceptions are modelled with `Except Unit`.
-/

namespace BrikRefundsSetup

/-- The characters removed by Python `str.strip()` for ASCII text:
space, tab, newline, carriage return, vertical tab and form feed. -/
def pyIsSpace (c : Char) : Bool :=
  c = ' ' || c = '\t' || c = '\n' || c = '\r' || c = '\x0b' || c = '\x0c'

/-- Python `line.strip()`: drop the leading run of whitespace, then the
trailing run of whitespace. -/
def pyStrip (l : List Char) : List Char :=
  ((l.dropWhile pyIsSpace).reverse.dropWhile pyIsSpace).reverse

/-- Python `line.startswith('#')`. -/
def pyStartsWithHash : List Char → Bool
  | [] => false
  | c :: _ => c = '#'

/-- Iterating a Python text file (`for line in f`): the text is cut after
every newline character, the newline staying attached to its line; an
empty file yields no lines. -/
def pyFileLines : List Char → List (List Char)
  | [] => []
  | c :: cs =>
    if c = '\n' then ['\n'] :: pyFileLines cs
    else
      match pyFileLines cs with
      | [] => [[c]]
      | r :: rs => (c :: r) :: rs

/-- The observable environment of the setup script.  `scriptFile name`
is the decoded content of `name` resolved in the directory holding
`setup.py` (`none` when the open raises), and `cwdExists name` is
`os.path.exists name` resolved in the current working directory. -/
structure FileSystem where
  scriptFile : String → Option (List Char)
  cwdExists : String → Bool

/-- `read(filename)`: open the file next to the setup script and return
its full text; a missing or unreadable file raises (is not handled). -/
def read (fs : FileSystem) (filename : String) : Except Unit (List Char) :=
  match fs.scriptFile filename with
  | some content => .ok content
  | none => .error ()

/-- The hardcoded dependency list returned by `get_requirements` when
`requirements.txt` cannot be opened. -/
def fallbackRequirements : List (List Char) :=
  [ "flask>=2.3.0".data,
    "sqlalchemy>=2.0.0".data,
    "marshmallow>=3.20.0".data,
    "celery>=5.3.0".data,
    "pyjwt>=2.8.0".data,
    "pymongo>=6.0.0".data,
    "redis>=7.0.0".data,
    "boto3>=1.28.0".data,
    "requests>=2.31.0".data,
    "python-dotenv>=1.0.0".data,
    "gunicorn>=21.2.0".data,
    "pydantic>=2.4.0".data,
    "cryptography>=41.0.0".data,
    "jinja2>=3.1.0".data ]

/-- One iteration of the parsing loop of `get_requirements`:
`line = line.strip()`, then
`if line and not line.startswith('#'): requirements.append(line)`. -/
def reqStep (requirements : List (List Char)) (line : List Char) : List (List Char) :=
  let l := pyStrip line
  if !l.isEmpty && !pyStartsWithHash l then requirements ++ [l]
  else requirements

/-- `get_requirements()`: read `requirements.txt` next to the setup
script, keep every line that, once stripped, is non-empty and does not
start with `#`; when opening the file raises `IOError` or
`FileNotFoundError`, return the hardcoded fallback list instead. -/
def get_requirements (fs : FileSystem) : List (List Char) :=
  match fs.scriptFile "requirements.txt" with
  | some content => (pyFileLines content).foldl reqStep []
  | none => fallbackRequirements

/-- The top-level `README` assignment:
`README = read('README.md') if os.path.exists('README.md') else ''`.
The guard consults the current working directory while `read` consults
the script directory, and any exception from `read` propagates. -/
def README (fs : FileSystem) : Except Unit (List Char) :=
  if fs.cwdExists "README.md" then read fs "README.md" else .ok []

/-- The keyword arguments handed to `setup(...)` by the script. -/
structure SetupArgs where
  name : String
  version : String
  description : String
  long_description : List Char
  python_requires : String
  install_requires : List (List Char)
  extras_require_dev : List String
  console_scripts : List String
  classifiers : List String
  deriving Repr, DecidableEq, Inhabited

/-- Running the module top level: evaluate `README`, then
`REQUIREMENTS`, then build the arguments of the `setup(...)` call; an
exception raised while computing `README` aborts the run. -/
def runSetup (fs : FileSystem) : Except Unit SetupArgs :=
  match README fs with
  | .error e => .error e
  | .ok readme =>
    .ok
      { name := "brik-refunds-service"
        version := "0.1.0"
        description :=
          "Comprehensive refund processing and management service for the Brik platform"
        long_description := readme
        python_requires := ">=3.11"
        install_requires := get_requirements fs
        extras_require_dev :=
          [ "pytest>=7.4.0", "pytest-cov>=4.1.0", "pytest-mock>=3.11.0",
            "black>=23.7.0", "flake8>=6.1.0", "isort>=5.12.0", "mypy>=1.5.0" ]
        console_scripts :=
          [ "refunds-api=backend.api.server:main",
            "refunds-worker=backend.workers.processor:main" ]
        classifiers :=
          [ "Development Status :: 4 - Beta",
            "Intended Audience :: Financial and Insurance Industry",
            "Programming Language :: Python :: 3.11",
            "Topic :: Office/Business :: Financial" ] }

/-- Spec-side description of the parsed dependency list: the lines of
the file, each stripped of surrounding whitespace, keeping exactly the
ones that are non-empty and are not comments, in file order. -/
def requirementsSpec (content : List Char) : List (List Char) :=
  ((pyFileLines content).map pyStrip).filter
    (fun l => !l.isEmpty && !pyStartsWithHash l)

/-- `headSat p l` holds when the first element of `l`, if any, does not
satisfy `p`; applied to `pyIsSpace` it reads "no leading whitespace",
and on `l.reverse` it reads "no trailing whitespace". -/
def headSat (p : Char → Bool) : List Char → Bool
  | [] => true
  | c :: _ => !p c

/- Concrete environments used to instantiate the theorems below. -/

/-- An environment with no readable files at all. -/
def fsNone : FileSystem :=
  { scriptFile := fun _ => none, cwdExists := fun _ => false }

/-- A sample requirements file: surrounding blanks, a comment line, a
blank line and an inline comment. -/
def reqExample : List Char :=
  "  flask>=1.0  \n# comment\n   \nredis>=7.0 # cache\n".data

/-- An environment whose script directory holds `reqExample` as
`requirements.txt`. -/
def fsReq : FileSystem :=
  { scriptFile := fun n => if n = "requirements.txt" then some reqExample else none
    cwdExists := fun _ => false }

/-- `README.md` exists next to the script but not in the current
working directory (the script is run from elsewhere). -/
def fsReadmeScriptOnly : FileSystem :=
  { scriptFile := fun n => if n = "README.md" then some ("hello".data) else none
    cwdExists := fun _ => false }

/-- `README.md` exists in the current working directory but not next to
the script. -/
def fsReadmeCwdOnly : FileSystem :=
  { scriptFile := fun _ => none
    cwdExists := fun n => n = "README.md" }

/-- `README.md` exists and the two path bases agree (the usual case of
running `setup.py` from its own directory). -/
def fsReadmeBoth : FileSystem :=
  { scriptFile := fun n => if n = "README.md" then some ("hello".data) else none
    cwdExists := fun n => n = "README.md" }

/-- The arguments produced by running the script in an empty
environment. -/
def argsNone : SetupArgs := (runSetup fsNone).toOption.getD default

/- Helper lemmas. -/

theorem reqStep_eq (acc : List (List Char)) (line : List Char) :
    reqStep acc line =
      if (!(pyStrip line).isEmpty && !pyStartsWithHash (pyStrip line)) = true
      then acc ++ [pyStrip line] else acc := rfl

theorem foldl_keep_eq (lines : List (List Char)) (acc : List (List Char)) :
    lines.foldl reqStep acc
      = acc ++ (lines.map pyStrip).filter (fun l => !l.isEmpty && !pyStartsWithHash l) := by
  induction lines generalizing acc with
  | nil => simp
  | cons a t ih =>
    rw [List.foldl_cons, reqStep_eq, List.map_cons, List.filter_cons]
    by_cases h : (!(pyStrip a).isEmpty && !pyStartsWithHash (pyStrip a)) = true
    · rw [if_pos h, if_pos h, ih, List.append_assoc, List.singleton_append]
    · rw [if_neg h, if_neg h, ih]

theorem get_requirements_some (fs : FileSystem) (content : List Char)
    (h : fs.scriptFile "requirements.txt" = some content) :
    get_requirements fs = requirementsSpec content := by
  unfold get_requirements
  rw [h]
  simpa [requirementsSpec] using
    foldl_keep_eq (pyFileLines content) []

theorem headSat_dropWhile (p : Char → Bool) (l : List Char) :
    headSat p (l.dropWhile p) = true := by
  induction l with
  | nil => rfl
  | cons a t ih =>
    by_cases h : p a = true
    · simpa [List.dropWhile_cons, h] using ih
    · simp [List.dropWhile_cons, h, headSat]

theorem dropWhile_suffix_ex (p : Char → Bool) (l : List Char) :
    ∃ r, r ++ l.dropWhile p = l := by
  induction l with
  | nil => exact ⟨[], rfl⟩
  | cons a t ih =>
    by_cases h : p a = true
    · obtain ⟨r, hr⟩ := ih
      exact ⟨a :: r, by simp [List.dropWhile_cons, h, hr]⟩
    · exact ⟨[], by simp [List.dropWhile_cons, h]⟩

theorem pyStrip_append_ex (l : List Char) :
    ∃ r, pyStrip l ++ r = l.dropWhile pyIsSpace := by
  obtain ⟨r, hr⟩ := dropWhile_suffix_ex pyIsSpace (l.dropWhile pyIsSpace).reverse
  refine ⟨r.reverse, ?_⟩
  have := congrArg List.reverse hr
  simpa [pyStrip, List.reverse_append] using this

theorem headSat_of_append_eq (p : Char → Bool) (l r m : List Char)
    (h : l ++ r = m) (hm : headSat p m = true) : headSat p l = true := by
  cases l with
  | nil => rfl
  | cons a t =>
    subst h
    simpa [headSat] using hm

theorem headSat_pyStrip (l : List Char) :
    headSat pyIsSpace (pyStrip l) = true := by
  obtain ⟨r, hr⟩ := pyStrip_append_ex l
  exact headSat_of_append_eq pyIsSpace _ r _ hr (headSat_dropWhile pyIsSpace l)

theorem headSat_pyStrip_reverse (l : List Char) :
    headSat pyIsSpace (pyStrip l).reverse = true := by
  rw [pyStrip, List.reverse_reverse]
  exact headSat_dropWhile pyIsSpace (l.dropWhile pyIsSpace).reverse

theorem isEmpty_false_iff (l : List Char) : l.isEmpty = false ↔ l ≠ [] := by
  cases l with
  | nil => simp
  | cons a t => simp

/- Claim theorems. -/

/-- C1: for every readable `requirements.txt`, `get_requirements`
returns exactly the lines of that file that are non-empty and are not
comments, in file order, each stripped of surrounding whitespace. -/
theorem C1_parsed_requirements (fs : FileSystem) (content : List Char)
    (h : fs.scriptFile "requirements.txt" = some content) :
    get_requirements fs = requirementsSpec content :=
  get_requirements_some fs content h

/-- Witness for C1 at the sample environment `fsReq`. -/
theorem C1_witness :
    fsReq.scriptFile "requirements.txt" = some reqExample ∧
    get_requirements fsReq = requirementsSpec reqExample :=
  ⟨rfl, C1_parsed_requirements fsReq reqExample rfl⟩

/-- C2: when `requirements.txt` cannot be opened, no exception escapes
`get_requirements` and the result is the fixed fourteen-entry fallback
list. -/
theorem C2_fallback_on_missing (fs : FileSystem)
    (h : fs.scriptFile "requirements.txt" = none) :
    get_requirements fs = fallbackRequirements ∧
      fallbackRequirements.length = 14 := by
  refine ⟨?_, rfl⟩
  unfold get_requirements
  rw [h]

/-- Witness for C2 in the empty environment. -/
theorem C2_witness :
    fsNone.scriptFile "requirements.txt" = none ∧
    (get_requirements fsNone = fallbackRequirements ∧
      fallbackRequirements.length = 14) :=
  ⟨rfl, C2_fallback_on_missing fsNone rfl⟩

/-- C3 as stated fails on the code: in `fsReadmeScriptOnly` the file
`README.md` exists next to `setup.py` with text `hello`, yet the long
description is the empty string, because the guard
`os.path.exists('README.md')` looks in the current working directory. -/
theorem C3_counterexample :
    fsReadmeScriptOnly.scriptFile "README.md" = some ("hello".data) ∧
    (runSetup fsReadmeScriptOnly).map SetupArgs.long_description = .ok [] ∧
    "hello".data ≠ ([] : List Char) :=
  ⟨rfl, rfl, by decide⟩

/-- C3 amended: when the exists-guard and `read` agree on `README.md`
(in particular when the working directory is the script directory), the
long description is the file text when the file exists and the empty
string otherwise. -/
theorem C3_amended_readme (fs : FileSystem)
    (h : fs.cwdExists "README.md" = (fs.scriptFile "README.md").isSome) :
    (runSetup fs).map SetupArgs.long_description =
      .ok ((fs.scriptFile "README.md").getD []) := by
  have hR : README fs = .ok ((fs.scriptFile "README.md").getD []) := by
    unfold README read
    cases hf : fs.scriptFile "README.md" with
    | none => rw [h, hf]; simp
    | some c => rw [h, hf]; simp
  unfold runSetup
  rw [hR]
  rfl

/-- Witness for the amended C3, with `README.md` present in both
views. -/
theorem C3_witness :
    fsReadmeBoth.cwdExists "README.md" =
      (fsReadmeBoth.scriptFile "README.md").isSome ∧
    (runSetup fsReadmeBoth).map SetupArgs.long_description =
      .ok ((fsReadmeBoth.scriptFile "README.md").getD []) :=
  ⟨by decide, C3_amended_readme fsReadmeBoth (by decide)⟩

/-- C4: whenever the script reaches the `setup(...)` call, the package
name, the version string and the two console-script entry points are
the fixed literals of the source, whatever the environment. -/
theorem C4_fixed_metadata (fs : FileSystem) (a : SetupArgs)
    (h : runSetup fs = .ok a) :
    a.name = "brik-refunds-service" ∧ a.version = "0.1.0" ∧
    a.console_scripts =
      [ "refunds-api=backend.api.server:main",
        "refunds-worker=backend.workers.processor:main" ] := by
  unfold runSetup at h
  cases hR : README fs with
  | error e => rw [hR] at h; exact Except.noConfusion h
  | ok readme =>
    rw [hR] at h
    injection h with h2
    subst h2
    exact ⟨rfl, rfl, rfl⟩

/-- Witness for C4 in the empty environment. -/
theorem C4_witness :
    runSetup fsNone = .ok argsNone ∧
    (argsNone.name = "brik-refunds-service" ∧ argsNone.version = "0.1.0" ∧
      argsNone.console_scripts =
        [ "refunds-api=backend.api.server:main",
          "refunds-worker=backend.workers.processor:main" ]) :=
  ⟨rfl, C4_fixed_metadata fsNone argsNone rfl⟩

/-- C5: on the fallback path `get_requirements` declares exactly the
fourteen pinned runtime dependencies of the source, and no others. -/
theorem C5_fallback_contents (fs : FileSystem)
    (h : fs.scriptFile "requirements.txt" = none) :
    get_requirements fs =
      [ "flask>=2.3.0".data, "sqlalchemy>=2.0.0".data,
        "marshmallow>=3.20.0".data, "celery>=5.3.0".data,
        "pyjwt>=2.8.0".data, "pymongo>=6.0.0".data,
        "redis>=7.0.0".data, "boto3>=1.28.0".data,
        "requests>=2.31.0".data, "python-dotenv>=1.0.0".data,
        "gunicorn>=21.2.0".data, "pydantic>=2.4.0".data,
        "cryptography>=41.0.0".data, "jinja2>=3.1.0".data ] ∧
    (get_requirements fs).length = 14 := by
  have e : get_requirements fs = fallbackRequirements := by
    unfold get_requirements
    rw [h]
  rw [e]
  exact ⟨rfl, rfl⟩

/-- Witness for C5 in the empty environment. -/
theorem C5_witness :
    fsNone.scriptFile "requirements.txt" = none ∧
    (get_requirements fsNone).length = 14 :=
  ⟨rfl, (C5_fallback_contents fsNone rfl).2⟩

/-- C6: the `python_requires` argument of the `setup(...)` call is the
fixed string `>=3.11`, whatever the environment. -/
theorem C6_python_requires_floor (fs : FileSystem) (a : SetupArgs)
    (h : runSetup fs = .ok a) : a.python_requires = ">=3.11" := by
  unfold runSetup at h
  cases hR : README fs with
  | error e => rw [hR] at h; exact Except.noConfusion h
  | ok readme =>
    rw [hR] at h
    injection h with h2
    subst h2
    rfl

/-- Witness for C6 in the empty environment. -/
theorem C6_witness :
    runSetup fsNone = .ok argsNone ∧ argsNone.python_requires = ">=3.11" :=
  ⟨rfl, C6_python_requires_floor fsNone argsNone rfl⟩

/-- C7: every entry of the list returned by `get_requirements`, on the
parsed path as well as on the fallback path, is non-empty, has no
leading or trailing whitespace, and does not begin with `#`. -/
theorem C7_entries_clean (fs : FileSystem) (l : List Char)
    (h : l ∈ get_requirements fs) :
    l ≠ [] ∧ headSat pyIsSpace l = true ∧
      headSat pyIsSpace l.reverse = true ∧ pyStartsWithHash l = false := by
  cases hf : fs.scriptFile "requirements.txt" with
  | none =>
    have e : get_requirements fs = fallbackRequirements := by
      unfold get_requirements
      rw [hf]
    rw [e] at h
    exact (by decide :
      ∀ x ∈ fallbackRequirements,
        x ≠ [] ∧ headSat pyIsSpace x = true ∧
          headSat pyIsSpace x.reverse = true ∧ pyStartsWithHash x = false) l h
  | some content =>
    rw [get_requirements_some fs content hf] at h
    unfold requirementsSpec at h
    obtain ⟨hmem, hcond⟩ := List.mem_filter.mp h
    obtain ⟨line, hline, rfl⟩ := List.mem_map.mp hmem
    rw [Bool.and_eq_true, Bool.not_eq_true', Bool.not_eq_true'] at hcond
    refine ⟨(isEmpty_false_iff (pyStrip line)).mp hcond.1,
      headSat_pyStrip line, headSat_pyStrip_reverse line, hcond.2⟩

/-- Witness for C7 at a fallback entry. -/
theorem C7_witness :
    "flask>=2.3.0".data ∈ get_requirements fsNone ∧
    ("flask>=2.3.0".data ≠ [] ∧
      headSat pyIsSpace "flask>=2.3.0".data = true ∧
      headSat pyIsSpace ("flask>=2.3.0".data).reverse = true ∧
      pyStartsWithHash "flask>=2.3.0".data = false) :=
  ⟨by decide, C7_entries_clean fsNone _ (by decide)⟩

/-- C8: a line is excluded exactly when its stripped form is empty or
begins with `#`; any other line is kept as its stripped form in full,
so a `#` after the first non-whitespace character and the text behind
it survive. -/
theorem C8_inline_comments_kept (fs : FileSystem) (content : List Char)
    (h : fs.scriptFile "requirements.txt" = some content) :
    (∀ line ∈ pyFileLines content,
        pyStrip line ≠ [] → pyStartsWithHash (pyStrip line) = false →
        pyStrip line ∈ get_requirements fs) ∧
    (∀ x ∈ get_requirements fs,
        ∃ line ∈ pyFileLines content,
          x = pyStrip line ∧ x ≠ [] ∧ pyStartsWithHash x = false) := by
  rw [get_requirements_some fs content h]
  constructor
  · intro line hline h1 h2
    unfold requirementsSpec
    refine List.mem_filter.mpr ⟨List.mem_map.mpr ⟨line, hline, rfl⟩, ?_⟩
    rw [Bool.and_eq_true, Bool.not_eq_true', Bool.not_eq_true']
    exact ⟨(isEmpty_false_iff (pyStrip line)).mpr h1, h2⟩
  · intro x hx
    unfold requirementsSpec at hx
    obtain ⟨hmem, hcond⟩ := List.mem_filter.mp hx
    obtain ⟨line, hline, rfl⟩ := List.mem_map.mp hmem
    rw [Bool.and_eq_true, Bool.not_eq_true', Bool.not_eq_true'] at hcond
    exact ⟨line, hline, rfl, (isEmpty_false_iff (pyStrip line)).mp hcond.1,
      hcond.2⟩

/-- Witness for C8: the inline-comment line of `reqExample` is kept in
full, `#` and trailing text included. -/
theorem C8_witness :
    pyStrip ("redis>=7.0 # cache\n".data) ∈ get_requirements fsReq ∧
    pyStrip ("redis>=7.0 # cache\n".data) = "redis>=7.0 # cache".data :=
  ⟨(C8_inline_comments_kept fsReq reqExample rfl).1 ("redis>=7.0 # cache\n".data)
      (by decide) (by decide) (by decide), by decide⟩

/-- C9: the exists-guard consults the current working directory while
`read` resolves against the script directory; when `README.md` exists
only in the working directory, the top-level `README` assignment raises
an unhandled exception and the run aborts. -/
theorem C9_guard_read_mismatch (fs : FileSystem)
    (hcwd : fs.cwdExists "README.md" = true)
    (hscript : fs.scriptFile "README.md" = none) :
    README fs = .error () ∧ runSetup fs = .error () := by
  have h1 : README fs = .error () := by
    unfold README read
    rw [hcwd, hscript]
    simp
  refine ⟨h1, ?_⟩
  unfold runSetup
  rw [h1]

/-- Witness for C9 with `README.md` only in the working directory. -/
theorem C9_witness :
    fsReadmeCwdOnly.cwdExists "README.md" = true ∧
    fsReadmeCwdOnly.scriptFile "README.md" = none ∧
    (README fsReadmeCwdOnly = .error () ∧
      runSetup fsReadmeCwdOnly = .error ()) :=
  ⟨by decide, rfl, C9_guard_read_mismatch fsReadmeCwdOnly (by decide) rfl⟩

end BrikRefundsSetup
